import Mathlib

/-!
Verification of the feeder-gateway query layer
(`src/starknet_devnet/blueprints/feeder_gateway.py`).

The gateway is a set of Flask route handlers in front of a ledger state
engine (`state.starknet_wrapper`).  Each handler is embedded as a pure
Lean function from its request parameters and an abstract `Engine`
(the external state-engine interface) to a `HandlerOutcome` recording:
the HTTP response produced (or an uncaught exception propagating out of
the handler), the list of state-engine operations invoked, and the
console notices printed.  External library calls
(`InvokeFunction.loads`, the starkware schema decoder) are abstracted
as their outcome, passed in as an `Except` value.
-/

namespace FeederGateway

/-- A `StarkException` raised by the starkware machinery / state engine.
`isDevnet` marks the `StarknetDevnetException` subclass
(`starknet_devnet.util`), which is the only type caught by
`get_full_contract`. -/
structure StarkException where
  isDevnet : Bool
  code : String
  message : String
deriving DecidableEq

/-- A JSON value, as produced by Flask's `jsonify`. -/
inductive JsonVal where
  | str : String → JsonVal
  | int : Int → JsonVal
  | obj : List (String × JsonVal) → JsonVal

/-- The body of an HTTP response.  `text` is a plain string body,
`json` a `jsonify`-encoded value, and `exc` records the case where a
raw exception object (not a string) was passed as the body of a
`Response`, as `get_transaction_trace` does at line 162. -/
inductive Body where
  | text : String → Body
  | json : JsonVal → Body
  | exc : StarkException → Body

/-- An HTTP response: status code plus body. -/
structure HttpResponse where
  status : Nat
  body : Body

/-- A decoded Starknet function call (starkware's `InvokeFunction`):
target address, entry-point selector, calldata. -/
structure CallSpec where
  contract_address : Int
  entry_point_selector : Int
  calldata : List Int
deriving DecidableEq

/-- Labels for the operations a handler invokes on the state engine
(`state.starknet_wrapper`). -/
inductive EngineOp where
  | call : CallSpec → EngineOp
  | getBlockByHash : String → EngineOp
  | getBlockByNumber : Option Int → EngineOp
  | getCode : Option Int → EngineOp
  | getFullContract : Option Int → EngineOp
  | getStorageAt : Option Int → Option Int → EngineOp
  | getTransactionStatus : Option String → EngineOp
  | getTransaction : Option String → EngineOp
  | getTransactionReceipt : Option String → EngineOp
  | getTransactionTrace : Option String → EngineOp
  | getStateUpdate : Option String → Option Int → EngineOp
  | calculateActualFee : CallSpec → EngineOp
deriving DecidableEq

/-- The external state-engine interface (`state.starknet_wrapper`).
Every operation may raise a `StarkException`. -/
structure Engine where
  call : CallSpec → Except StarkException JsonVal
  get_block_by_hash : String → Except StarkException JsonVal
  get_block_by_number : Option Int → Except StarkException JsonVal
  get_code : Option Int → Except StarkException JsonVal
  get_full_contract : Option Int → Except StarkException JsonVal
  get_storage_at : Option Int → Option Int → Except StarkException JsonVal
  get_transaction_status : Option String → Except StarkException JsonVal
  get_transaction : Option String → Except StarkException JsonVal
  get_transaction_receipt : Option String → Except StarkException JsonVal
  get_transaction_trace : Option String → Except StarkException JsonVal
  get_state_update : Option String → Option Int → Except StarkException JsonVal
  calculate_actual_fee : CallSpec → Except StarkException Int

/-- What a handler produced: `result` is the HTTP response, or — when the
handler has no `try/except` around the engine call — the uncaught
exception propagating raw out of the handler; `ops` are the state-engine
operations invoked, in order; `notices` are console prints. -/
structure HandlerOutcome where
  result : Except StarkException HttpResponse
  ops : List EngineOp
  notices : List String

/-- Value of one hex or decimal digit, bounded by `base`. -/
def digitVal (base : Nat) (c : Char) : Option Nat :=
  let v :=
    if c.isDigit then some (c.toNat - 48)
    else if 'a' ≤ c && c ≤ 'f' then some (c.toNat - 87)
    else if 'A' ≤ c && c ≤ 'F' then some (c.toNat - 55)
    else none
  match v with
  | some n => if n < base then some n else none
  | none => none

/-- Accumulate digits left to right in the given base. -/
def parseNatAux (base : Nat) : List Char → Nat → Option Nat
  | [], acc => some acc
  | c :: rest, acc =>
    match digitVal base c with
    | some v => parseNatAux base rest (acc * base + v)
    | none => none

/-- Parse a non-empty digit string in the given base. -/
def parseNatList (base : Nat) (cs : List Char) : Option Nat :=
  match cs with
  | [] => none
  | _ => parseNatAux base cs 0

/-- Modelled from the spec: `custom_int` (defined in
`starknet_devnet/util.py`, which is not present under `src/`) parses a
decimal or `0x`-prefixed hexadecimal string into an integer and fails
(`none`, standing for a raised `ValueError`) on any other lexical form,
including the empty string. -/
def custom_int (s : String) : Option Int :=
  match s.toList with
  | '0' :: 'x' :: rest => (parseNatList 16 rest).map Int.ofNat
  | cs => (parseNatList 10 cs).map Int.ofNat

/-- Flask's `request.args.get(name, type=custom_int)`: `none` when the
parameter is absent or when the converter raises. -/
def argGetInt (raw : Option String) : Option Int :=
  raw.bind custom_int

/-- The notice printed by `_check_block_hash` (line 31). -/
def hashNotice : String :=
  "Specifying a block by its hash is not supported. All interaction is done with the latest block."

/-- `_check_block_hash` (lines 28-31): parses `blockHash` with
`custom_int` and, when one was supplied, prints a notice.  It has no
effect on the response. -/
def check_block_hash (blockHashRaw : Option String) : List String :=
  match argGetInt blockHashRaw with
  | some _ => [hashNotice]
  | none => []

/-- The `AmbiguousCriteria` message (line 35). -/
def ambiguousMessage : String :=
  "Ambiguous criteria: only one of (block number, block hash) can be provided."

/-- `_check_block_arguments` (lines 33-36): aborts with a 500 response
when both a block hash and a block number were provided. -/
def check_block_arguments (block_hash : Option String) (block_number : Option Int) :
    Option HttpResponse :=
  if block_hash.isSome && block_number.isSome then
    some ⟨500, .text ambiguousMessage⟩
  else none

/-- `validate_call` (lines 18-26): ensure the request body is a valid
Starknet function call.  The external `InvokeFunction.loads` schema
decoder is abstracted as its outcome `data`; on a decode error the
handler aborts with a 400 response. -/
def validate_call (data : Except String CallSpec) : Except HttpResponse CallSpec :=
  match data with
  | .error err => .error ⟨400, .text ("Invalid Starknet function call: " ++ err)⟩
  | .ok call_specifications => .ok call_specifications

/-- Modelled from the spec: `validate_transaction` (defined in
`blueprints/shared.py`, which is not present under `src/`) parses the
request body against the same call/transaction schema and aborts with a
400 `MalformedInput` response carrying the validation detail on schema
violation. -/
def validate_transaction (data : Except String CallSpec) : Except HttpResponse CallSpec :=
  match data with
  | .error err => .error ⟨400, .text ("Invalid transaction: " ++ err)⟩
  | .ok transaction => .ok transaction

/-- `is_alive` (lines 38-41): health check; a bare string return in
Flask yields status 200. -/
def is_alive : HandlerOutcome :=
  ⟨.ok ⟨200, .text "Alive!!!"⟩, [], []⟩

/-- `get_contract_addresses` (lines 43-46): unconditionally
`("Not implemented", 501)`. -/
def get_contract_addresses : HandlerOutcome :=
  ⟨.ok ⟨501, .text "Not implemented"⟩, [], []⟩

/-- `call_contract` (lines 48-62): validate the body, forward one
`call` to the engine, catch `StarkException` and re-encode it as a 500
with the exception's message. -/
def call_contract (data : Except String CallSpec) (engine : Engine) : HandlerOutcome :=
  match validate_call data with
  | .error resp => ⟨.ok resp, [], []⟩
  | .ok call_specifications =>
    match engine.call call_specifications with
    | .error err => ⟨.ok ⟨500, .text err.message⟩, [.call call_specifications], []⟩
    | .ok result_dict => ⟨.ok ⟨200, .json result_dict⟩, [.call call_specifications], []⟩

/-- `get_block` (lines 64-80): `blockHash` is read raw, `blockNumber`
through `custom_int`; after the ambiguity check, a supplied hash is
looked up via `get_block_by_hash`, otherwise via `get_block_by_number`;
`StarkException` is caught and re-encoded as a 500 with its message. -/
def get_block (blockHashRaw blockNumberRaw : Option String) (engine : Engine) :
    HandlerOutcome :=
  let block_hash := blockHashRaw
  let block_number := argGetInt blockNumberRaw
  match check_block_arguments block_hash block_number with
  | some resp => ⟨.ok resp, [], []⟩
  | none =>
    match block_hash with
    | some h =>
      match engine.get_block_by_hash h with
      | .error err => ⟨.ok ⟨500, .text err.message⟩, [.getBlockByHash h], []⟩
      | .ok result_dict => ⟨.ok ⟨200, .json result_dict⟩, [.getBlockByHash h], []⟩
    | none =>
      match engine.get_block_by_number block_number with
      | .error err => ⟨.ok ⟨500, .text err.message⟩, [.getBlockByNumber block_number], []⟩
      | .ok result_dict => ⟨.ok ⟨200, .json result_dict⟩, [.getBlockByNumber block_number], []⟩

/-- `get_code` (lines 82-92): prints the hash notice if a `blockHash`
was supplied, then calls the engine with no `try/except` — an
engine-raised exception propagates raw out of the handler. -/
def get_code (blockHashRaw contractAddressRaw : Option String) (engine : Engine) :
    HandlerOutcome :=
  let notices := check_block_hash blockHashRaw
  let contract_address := argGetInt contractAddressRaw
  match engine.get_code contract_address with
  | .error err => ⟨.error err, [.getCode contract_address], notices⟩
  | .ok result_dict => ⟨.ok ⟨200, .json result_dict⟩, [.getCode contract_address], notices⟩

/-- `get_full_contract` (lines 94-108): like `get_code` but catches
`StarknetDevnetException` (only that subclass), re-encoding it as a 500
with its message; any other `StarkException` propagates raw. -/
def get_full_contract (blockHashRaw contractAddressRaw : Option String) (engine : Engine) :
    HandlerOutcome :=
  let notices := check_block_hash blockHashRaw
  let contract_address := argGetInt contractAddressRaw
  match engine.get_full_contract contract_address with
  | .error err =>
    if err.isDevnet then
      ⟨.ok ⟨500, .text err.message⟩, [.getFullContract contract_address], notices⟩
    else
      ⟨.error err, [.getFullContract contract_address], notices⟩
  | .ok result_dict =>
    ⟨.ok ⟨200, .json result_dict⟩, [.getFullContract contract_address], notices⟩

/-- `get_storage_at` (lines 110-119): hash notice, then an uncaught
engine call on (contractAddress, key). -/
def get_storage_at (blockHashRaw contractAddressRaw keyRaw : Option String)
    (engine : Engine) : HandlerOutcome :=
  let notices := check_block_hash blockHashRaw
  let contract_address := argGetInt contractAddressRaw
  let key := argGetInt keyRaw
  match engine.get_storage_at contract_address key with
  | .error err => ⟨.error err, [.getStorageAt contract_address key], notices⟩
  | .ok storage => ⟨.ok ⟨200, .json storage⟩, [.getStorageAt contract_address key], notices⟩

/-- `get_transaction_status` (lines 121-129): uncaught engine call keyed
by the raw `transactionHash`. -/
def get_transaction_status (transactionHashRaw : Option String) (engine : Engine) :
    HandlerOutcome :=
  match engine.get_transaction_status transactionHashRaw with
  | .error err => ⟨.error err, [.getTransactionStatus transactionHashRaw], []⟩
  | .ok ret => ⟨.ok ⟨200, .json ret⟩, [.getTransactionStatus transactionHashRaw], []⟩

/-- `get_transaction` (lines 131-139): uncaught engine call keyed by the
raw `transactionHash`. -/
def get_transaction (transactionHashRaw : Option String) (engine : Engine) :
    HandlerOutcome :=
  match engine.get_transaction transactionHashRaw with
  | .error err => ⟨.error err, [.getTransaction transactionHashRaw], []⟩
  | .ok ret => ⟨.ok ⟨200, .json ret⟩, [.getTransaction transactionHashRaw], []⟩

/-- `get_transaction_receipt` (lines 141-149): uncaught engine call
keyed by the raw `transactionHash`. -/
def get_transaction_receipt (transactionHashRaw : Option String) (engine : Engine) :
    HandlerOutcome :=
  match engine.get_transaction_receipt transactionHashRaw with
  | .error err => ⟨.error err, [.getTransactionReceipt transactionHashRaw], []⟩
  | .ok ret => ⟨.ok ⟨200, .json ret⟩, [.getTransactionReceipt transactionHashRaw], []⟩

/-- `get_transaction_trace` (lines 151-164): catches `StarkException`,
but aborts with `Response(err, 500)` — the exception OBJECT, not
`err.message`, becomes the body (`Body.exc`). -/
def get_transaction_trace (transactionHashRaw : Option String) (engine : Engine) :
    HandlerOutcome :=
  match engine.get_transaction_trace transactionHashRaw with
  | .error err => ⟨.ok ⟨500, .exc err⟩, [.getTransactionTrace transactionHashRaw], []⟩
  | .ok transaction_trace =>
    ⟨.ok ⟨200, .json transaction_trace⟩, [.getTransactionTrace transactionHashRaw], []⟩

/-- `get_state_update` (lines 166-181): reads `blockHash` raw and
`blockNumber` through `custom_int` and passes BOTH to the engine with no
ambiguity check; `StarkException` is caught and re-encoded as a 500 with
its message. -/
def get_state_update (blockHashRaw blockNumberRaw : Option String) (engine : Engine) :
    HandlerOutcome :=
  let block_hash := blockHashRaw
  let block_number := argGetInt blockNumberRaw
  match engine.get_state_update block_hash block_number with
  | .error err => ⟨.ok ⟨500, .text err.message⟩, [.getStateUpdate block_hash block_number], []⟩
  | .ok state_update =>
    ⟨.ok ⟨200, .json state_update⟩, [.getStateUpdate block_hash block_number], []⟩

/-- `estimate_fee` (lines 183-195): validate the body, ask the engine
for the actual fee, catch `StarkException` as a 500 with its message,
and on success wrap the fee as a JSON object with keys `amount` and
`unit`, the latter bound to the literal string `wei`. -/
def estimate_fee (data : Except String CallSpec) (engine : Engine) : HandlerOutcome :=
  match validate_transaction data with
  | .error resp => ⟨.ok resp, [], []⟩
  | .ok transaction =>
    match engine.calculate_actual_fee transaction with
    | .error stark_exception =>
      ⟨.ok ⟨500, .text stark_exception.message⟩, [.calculateActualFee transaction], []⟩
    | .ok actual_fee =>
      ⟨.ok ⟨200, .json (.obj [("amount", .int actual_fee), ("unit", .str "wei")])⟩,
        [.calculateActualFee transaction], []⟩

/-- The status of the HTTP response a handler produced, `none` when an
exception propagated instead of a response. -/
def okStatus (o : HandlerOutcome) : Option Nat :=
  match o.result with
  | .ok r => some r.status
  | .error _ => none

/-- The response status is 200, 400 or 500 (or an exception propagated
instead of a response). -/
def allowedStatus (o : HandlerOutcome) : Prop :=
  okStatus o = none ∨ okStatus o = some 200 ∨ okStatus o = some 400 ∨ okStatus o = some 500

/-- A test engine on which every operation succeeds. -/
def engineA : Engine where
  call := fun _ => .ok (.str "ok")
  get_block_by_hash := fun _ => .ok (.str "block")
  get_block_by_number := fun _ => .ok (.str "block")
  get_code := fun _ => .ok (.str "code")
  get_full_contract := fun _ => .ok (.str "contract")
  get_storage_at := fun _ _ => .ok (.str "storage")
  get_transaction_status := fun _ => .ok (.str "status")
  get_transaction := fun _ => .ok (.str "tx")
  get_transaction_receipt := fun _ => .ok (.str "receipt")
  get_transaction_trace := fun _ => .ok (.str "trace")
  get_state_update := fun _ _ => .ok (.str "diff")
  calculate_actual_fee := fun _ => .ok 0

/-- An engine on which every operation raises the given exception. -/
def engineRaising (e : StarkException) : Engine where
  call := fun _ => .error e
  get_block_by_hash := fun _ => .error e
  get_block_by_number := fun _ => .error e
  get_code := fun _ => .error e
  get_full_contract := fun _ => .error e
  get_storage_at := fun _ _ => .error e
  get_transaction_status := fun _ => .error e
  get_transaction := fun _ => .error e
  get_transaction_receipt := fun _ => .error e
  get_transaction_trace := fun _ => .error e
  get_state_update := fun _ _ => .error e
  calculate_actual_fee := fun _ => .error e

/-- A concrete plain (non-devnet) `StarkException`. -/
def starkBoom : StarkException :=
  ⟨false, "TRANSACTION_FAILED", "boom"⟩

/-- An engine on which every operation raises `starkBoom`. -/
def engineErr : Engine :=
  engineRaising starkBoom

/-- A concrete decoded call specification. -/
def specA : CallSpec :=
  ⟨1, 2, [3]⟩

/-- C1 counterexample: a GET /get_state_update request supplying both a
block hash and a block number is NOT answered with the AmbiguousCriteria
error: the state engine's state-update lookup is invoked with both
arguments and its result is returned with status 200. -/
theorem C1_state_update_counterexample :
    (get_state_update (some "0x1") (some "0") engineA).result =
      .ok ⟨200, .json (.str "diff")⟩ ∧
    (get_state_update (some "0x1") (some "0") engineA).ops =
      [EngineOp.getStateUpdate (some "0x1") (some 0)] :=
  ⟨rfl, rfl⟩

/-- C1 amended: for every GET /get_block request supplying both a block
hash and a block number that parses as an integer, the response is the
AmbiguousCriteria error with status 500 and the fixed message, and no
state-engine operation is invoked; GET /get_state_update performs no
such ambiguity check and forwards both arguments to the engine's
state-update lookup. -/
theorem C1_ambiguity (engine : Engine) (h n : String)
    (hn : (custom_int n).isSome) :
    get_block (some h) (some n) engine =
      ⟨.ok ⟨500, .text ambiguousMessage⟩, [], []⟩ ∧
    (get_state_update (some h) (some n) engine).ops =
      [EngineOp.getStateUpdate (some h) (custom_int n)] := by
  obtain ⟨k, hk⟩ := Option.isSome_iff_exists.mp hn
  constructor
  · simp [get_block, check_block_arguments, argGetInt, hk]
  · simp only [get_state_update]
    cases hs : engine.get_state_update (some h) (argGetInt (some n)) <;> rfl

/-- C1 witness: the amended C1 at a concrete hash, number and engine. -/
theorem C1_ambiguity_witness :
    get_block (some "0x1") (some "0") engineA =
      ⟨.ok ⟨500, .text ambiguousMessage⟩, [], []⟩ ∧
    (get_state_update (some "0x1") (some "0") engineA).ops =
      [EngineOp.getStateUpdate (some "0x1") (custom_int "0")] :=
  C1_ambiguity engineA "0x1" "0" (by decide)

/-- C2 counterexample: a GET /get_block request supplying only a block
hash performs a hash-based fetch on the state engine
(get_block_by_hash) and returns its result: the hash is not ignored and
the lookup does not fall back to number/Latest. -/
theorem C2_hash_lookup_counterexample :
    (get_block (some "0x1") none engineA).ops = [EngineOp.getBlockByHash "0x1"] ∧
    (get_block (some "0x1") none engineA).result = .ok ⟨200, .json (.str "block")⟩ :=
  ⟨rfl, rfl⟩

/-- C2 amended: GET /get_block does service hash lookups: when a block
hash is supplied alone the dispatcher invokes the engine's
get_block_by_hash with that hash, and only when no hash is supplied does
it look up by number (or latest when the number is absent); it prints no
ignore-notice, which belongs to check_block_hash, a helper get_block
never calls. -/
theorem C2_block_dispatch (engine : Engine) (h : String) (nraw : Option String) :
    (get_block (some h) none engine).ops = [EngineOp.getBlockByHash h] ∧
    (get_block none nraw engine).ops = [EngineOp.getBlockByNumber (argGetInt nraw)] ∧
    (get_block (some h) none engine).notices = [] := by
  have hcb : check_block_arguments (some h) (argGetInt none) = none := rfl
  have hcb2 : check_block_arguments none (argGetInt nraw) = none := rfl
  refine ⟨?_, ?_, ?_⟩
  · simp only [get_block, hcb]
    cases hs : engine.get_block_by_hash h <;> rfl
  · simp only [get_block, hcb2]
    cases hs : engine.get_block_by_number (argGetInt nraw) <;> rfl
  · simp only [get_block, hcb]
    cases hs : engine.get_block_by_hash h <;> rfl

/-- C3 counterexample: GET /get_code with an engine that raises lets the
raw StarkException propagate out of the handler instead of re-encoding
it as a gateway error response. -/
theorem C3_get_code_counterexample :
    (get_code none (some "1") engineErr).result = .error starkBoom :=
  rfl

/-- C3 amended: engine-raised failures are caught and re-encoded as a
gateway response (status plus body) by call_contract, get_block,
get_full_contract (for devnet exceptions only), get_transaction_trace,
get_state_update and estimate_fee; for get_code, get_storage_at,
get_transaction_status, get_transaction and get_transaction_receipt an
engine-raised failure propagates uncaught out of the handler. -/
theorem C3_catch_boundaries (e : StarkException) (sp : CallSpec)
    (bh th nraw araw kraw : Option String) :
    (call_contract (.ok sp) (engineRaising e)).result = .ok ⟨500, .text e.message⟩ ∧
    (get_block none nraw (engineRaising e)).result = .ok ⟨500, .text e.message⟩ ∧
    (get_full_contract bh araw (engineRaising e)).result =
      (if e.isDevnet then .ok ⟨500, .text e.message⟩ else .error e) ∧
    (get_transaction_trace th (engineRaising e)).result = .ok ⟨500, .exc e⟩ ∧
    (get_state_update bh nraw (engineRaising e)).result = .ok ⟨500, .text e.message⟩ ∧
    (estimate_fee (.ok sp) (engineRaising e)).result = .ok ⟨500, .text e.message⟩ ∧
    (get_code bh araw (engineRaising e)).result = .error e ∧
    (get_storage_at bh araw kraw (engineRaising e)).result = .error e ∧
    (get_transaction_status th (engineRaising e)).result = .error e ∧
    (get_transaction th (engineRaising e)).result = .error e ∧
    (get_transaction_receipt th (engineRaising e)).result = .error e := by
  refine ⟨rfl, rfl, ?_, rfl, rfl, rfl, rfl, rfl, rfl, rfl, rfl⟩
  cases hd : e.isDevnet <;> simp [get_full_contract, engineRaising, hd]

/-- C4: when the engine raises during GET /get_transaction_trace, the
handler aborts with the exception OBJECT as the response body of the
500, which is not the body carrying the exception's message string
verbatim. -/
theorem C4_trace_exception_body :
    (get_transaction_trace (some "0xabc") engineErr).result =
      .ok ⟨500, .exc starkBoom⟩ ∧
    Body.exc starkBoom ≠ Body.text starkBoom.message :=
  ⟨rfl, fun h => Body.noConfusion h⟩

/-- C5: POST /call_contract: a body failing schema validation yields a
400 response and invokes no state-engine operation; a valid body
forwards exactly one call operation to the engine and on success
returns the engine's result unmodified as the JSON response body. -/
theorem C5_call_contract_dispatch (engine : Engine) (err : String) (sp : CallSpec)
    (r : JsonVal) (hr : engine.call sp = .ok r) :
    call_contract (.error err) engine =
      ⟨.ok ⟨400, .text ("Invalid Starknet function call: " ++ err)⟩, [], []⟩ ∧
    (call_contract (.ok sp) engine).ops = [EngineOp.call sp] ∧
    (call_contract (.ok sp) engine).result = .ok ⟨200, .json r⟩ := by
  refine ⟨rfl, ?_, ?_⟩ <;> simp [call_contract, validate_call, hr]

/-- C5 witness: C5 at a concrete bad body, call specification and
engine. -/
theorem C5_call_contract_dispatch_witness :
    call_contract (.error "bad") engineA =
      ⟨.ok ⟨400, .text ("Invalid Starknet function call: " ++ "bad")⟩, [], []⟩ ∧
    (call_contract (.ok specA) engineA).ops = [EngineOp.call specA] ∧
    (call_contract (.ok specA) engineA).result = .ok ⟨200, .json (.str "ok")⟩ :=
  C5_call_contract_dispatch engineA "bad" specA (.str "ok") rfl

/-- C6 counterexample: GET /get_contract_addresses responds with status
501, which is none of 200, 400 and 500. -/
theorem C6_status_counterexample :
    okStatus get_contract_addresses = some 501 ∧
    ((501 : Nat) ≠ 200 ∧ (501 : Nat) ≠ 400 ∧ (501 : Nat) ≠ 500) :=
  ⟨rfl, by decide⟩

/-- C6 amended: every status produced by the handlers is one of 200,
400, 500 or 501, with 501 arising only from get_contract_addresses; no
handler ever yields a 404. -/
theorem C6_status_vocabulary (engine : Engine) (d : Except String CallSpec)
    (bh nraw araw kraw th : Option String) :
    allowedStatus (call_contract d engine) ∧
    allowedStatus (get_block bh nraw engine) ∧
    allowedStatus (get_code bh araw engine) ∧
    allowedStatus (get_full_contract bh araw engine) ∧
    allowedStatus (get_storage_at bh araw kraw engine) ∧
    allowedStatus (get_transaction_status th engine) ∧
    allowedStatus (get_transaction th engine) ∧
    allowedStatus (get_transaction_receipt th engine) ∧
    allowedStatus (get_transaction_trace th engine) ∧
    allowedStatus (get_state_update bh nraw engine) ∧
    allowedStatus (estimate_fee d engine) ∧
    okStatus is_alive = some 200 ∧
    okStatus get_contract_addresses = some 501 := by
  refine ⟨?_, ?_, ?_, ?_, ?_, ?_, ?_, ?_, ?_, ?_, ?_, rfl, rfl⟩
  · rcases d with err | sp
    · simp [call_contract, validate_call, allowedStatus, okStatus]
    · cases hs : engine.call sp <;>
        simp [call_contract, validate_call, allowedStatus, okStatus, hs]
  · rcases bh with _ | hsh
    · cases hs : engine.get_block_by_number (argGetInt nraw) <;>
        simp [get_block, check_block_arguments, allowedStatus, okStatus, hs]
    · rcases hn : argGetInt nraw with _ | k
      · cases hs : engine.get_block_by_hash hsh <;>
          simp [get_block, check_block_arguments, allowedStatus, okStatus, hn, hs]
      · simp [get_block, check_block_arguments, allowedStatus, okStatus, hn]
  · cases hs : engine.get_code (argGetInt araw) <;>
      simp [get_code, allowedStatus, okStatus, hs]
  · cases hs : engine.get_full_contract (argGetInt araw) with
    | error err =>
      cases hd : err.isDevnet <;>
        simp [get_full_contract, allowedStatus, okStatus, hs, hd]
    | ok v => simp [get_full_contract, allowedStatus, okStatus, hs]
  · cases hs : engine.get_storage_at (argGetInt araw) (argGetInt kraw) <;>
      simp [get_storage_at, allowedStatus, okStatus, hs]
  · cases hs : engine.get_transaction_status th <;>
      simp [get_transaction_status, allowedStatus, okStatus, hs]
  · cases hs : engine.get_transaction th <;>
      simp [get_transaction, allowedStatus, okStatus, hs]
  · cases hs : engine.get_transaction_receipt th <;>
      simp [get_transaction_receipt, allowedStatus, okStatus, hs]
  · cases hs : engine.get_transaction_trace th <;>
      simp [get_transaction_trace, allowedStatus, okStatus, hs]
  · cases hs : engine.get_state_update bh (argGetInt nraw) <;>
      simp [get_state_update, allowedStatus, okStatus, hs]
  · rcases d with err | sp
    · simp [estimate_fee, validate_transaction, allowedStatus, okStatus]
    · cases hs : engine.calculate_actual_fee sp <;>
        simp [estimate_fee, validate_transaction, allowedStatus, okStatus, hs]

/-- C7: every successful POST /estimate_fee response body is the JSON
object binding key amount to the engine's integer fee and key unit to
the literal string wei, whatever fee value the engine returns. -/
theorem C7_estimate_fee_shape (engine : Engine) (sp : CallSpec) (fee : Int)
    (hf : engine.calculate_actual_fee sp = .ok fee) :
    (estimate_fee (.ok sp) engine).result =
      .ok ⟨200, .json (.obj [("amount", .int fee), ("unit", .str "wei")])⟩ := by
  simp [estimate_fee, validate_transaction, hf]

/-- C7 witness: C7 at a concrete call specification on an engine whose
fee computation returns 0. -/
theorem C7_estimate_fee_shape_witness :
    (estimate_fee (.ok specA) engineA).result =
      .ok ⟨200, .json (.obj [("amount", .int 0), ("unit", .str "wei")])⟩ :=
  C7_estimate_fee_shape engineA specA 0 rfl

/-- C8: GET /get_contract_addresses unconditionally responds 501 Not
implemented, invokes no state-engine operation and prints nothing. -/
theorem C8_contract_addresses :
    get_contract_addresses = ⟨.ok ⟨501, .text "Not implemented"⟩, [], []⟩ :=
  rfl

/-- C9: GET /is_alive responds exactly 200 with body Alive!!!, invoking
no state-engine operation; as a constant of the embedding it depends on
no engine state and no request parameter. -/
theorem C9_is_alive_response :
    is_alive = ⟨.ok ⟨200, .text "Alive!!!"⟩, [], []⟩ :=
  rfl

/-- C10: the responses of GET /get_code, GET /get_full_contract and
GET /get_storage_at are independent of the blockHash parameter: for any
two blockHash values (supplied or not) with the same remaining
parameters and engine, the result and the engine operations invoked
coincide (only the console notice may differ). -/
theorem C10_block_hash_independence (engine : Engine) (bh bh' araw kraw : Option String) :
    ((get_code bh araw engine).result = (get_code bh' araw engine).result ∧
      (get_code bh araw engine).ops = (get_code bh' araw engine).ops) ∧
    ((get_full_contract bh araw engine).result =
        (get_full_contract bh' araw engine).result ∧
      (get_full_contract bh araw engine).ops = (get_full_contract bh' araw engine).ops) ∧
    ((get_storage_at bh araw kraw engine).result =
        (get_storage_at bh' araw kraw engine).result ∧
      (get_storage_at bh araw kraw engine).ops =
        (get_storage_at bh' araw kraw engine).ops) := by
  refine ⟨⟨?_, ?_⟩, ⟨?_, ?_⟩, ⟨?_, ?_⟩⟩
  · cases hs : engine.get_code (argGetInt araw) <;> simp [get_code, hs]
  · cases hs : engine.get_code (argGetInt araw) <;> simp [get_code, hs]
  · cases hs : engine.get_full_contract (argGetInt araw) with
    | error err => cases hd : err.isDevnet <;> simp [get_full_contract, hs, hd]
    | ok v => simp [get_full_contract, hs]
  · cases hs : engine.get_full_contract (argGetInt araw) with
    | error err => cases hd : err.isDevnet <;> simp [get_full_contract, hs, hd]
    | ok v => simp [get_full_contract, hs]
  · cases hs : engine.get_storage_at (argGetInt araw) (argGetInt kraw) <;>
      simp [get_storage_at, hs]
  · cases hs : engine.get_storage_at (argGetInt araw) (argGetInt kraw) <;>
      simp [get_storage_at, hs]

end FeederGateway
